import Mathlib

/-!
Verification of the EventBridge-Pipes DynamoDB-to-EventBridge CDK pattern
(`infrastructure/eventbridge_pipes.py` and `app.py`).

The repository is declarative infrastructure code: `UserEventsPipeline`
builds a DynamoDB table with a stream, one shared IAM role, and three
EventBridge pipes (one per stream operation type).  We embed the builder
shallowly: each Python helper becomes a Lean function on explicit data,
Python exceptions become `Except`, and the JSON filter pattern produced by
`json.dumps` is modelled by an executable JSON type with a renderer that
mirrors `json.dumps`' default output format.
-/

namespace Pipes

/-- JSON values.  Objects and arrays are encoded with their own cons/nil
constructors (rather than nested `List`s) so that every function on `Json`
is structurally recursive and evaluates by `decide`/`rfl`. -/
inductive Json where
  | str (s : String)
  | num (n : Int)
  | objNil
  | objCons (key : String) (value tail : Json)
  | arrNil
  | arrCons (head tail : Json)
  deriving DecidableEq, Repr

/-- Build a JSON object from a list of fields (Python dict literal). -/
def Json.obj : List (String × Json) → Json
  | [] => .objNil
  | (k, v) :: tl => .objCons k v (Json.obj tl)

/-- Build a JSON array from a list (Python list literal). -/
def Json.arr : List Json → Json
  | [] => .arrNil
  | v :: tl => .arrCons v (Json.arr tl)

/-- Render a JSON value exactly as Python `json.dumps` does with its default
separators (`", "` between items, `": "` after keys).  The second argument
selects between rendering a stand-alone value (`false`) and rendering the
continuation of an object/array body (`true`), which keeps the function
structurally recursive. -/
def Json.renderAux : Json → Bool → String
  | .str s, _ => "\"" ++ s ++ "\""
  | .num n, _ => toString n
  | .objNil, false => "\x7b\x7d"
  | .objNil, true => ""
  | .objCons k v tl, false =>
      "\x7b\"" ++ k ++ "\": " ++ Json.renderAux v false ++ Json.renderAux tl true ++ "\x7d"
  | .objCons k v tl, true =>
      ", \"" ++ k ++ "\": " ++ Json.renderAux v false ++ Json.renderAux tl true
  | .arrNil, false => "[]"
  | .arrNil, true => ""
  | .arrCons v tl, false =>
      "[" ++ Json.renderAux v false ++ Json.renderAux tl true ++ "]"
  | .arrCons v tl, true =>
      ", " ++ Json.renderAux v false ++ Json.renderAux tl true

/-- `json.dumps` of a JSON value (default separators). -/
def Json.render (j : Json) : String := Json.renderAux j false

/-- DynamoDB stream view types (`aws_dynamodb.StreamViewType`). -/
inductive StreamViewType where
  | NEW_AND_OLD_IMAGES
  | NEW_IMAGE
  | OLD_IMAGE
  | KEYS_ONLY
  deriving DecidableEq, Repr

/-- A DynamoDB attribute definition (`aws_dynamodb.Attribute`). -/
structure Attr where
  name : String
  type : String
  deriving DecidableEq, Repr

/-- A DynamoDB table reference as the builder sees it
(`aws_dynamodb.Table`).  `tableStreamArn` is the CDK `table_stream_arn`
property: an ARN token when the table was declared with a stream, `none`
otherwise. -/
structure DdbTable where
  tableName : String
  partitionKey : Attr
  sortKey : Attr
  stream : Option StreamViewType
  tableStreamArn : Option String
  deriving DecidableEq, Repr

/-- The CDK `dynamodb.Table(...)` constructor: declaring the table with a
`stream=` view type makes `table_stream_arn` a (deterministic) ARN token;
omitting it leaves `table_stream_arn` as `None`. -/
def mkTable (id : String) (partitionKey sortKey : Attr)
    (stream : Option StreamViewType) : DdbTable :=
  { tableName := id
    partitionKey := partitionKey
    sortKey := sortKey
    stream := stream
    tableStreamArn := stream.map (fun _ => id ++ "StreamArn") }

/-- Python truthiness of `ddb_table.table_stream_arn` in
`if not ddb_table.table_stream_arn:` — falsy when `None` or empty. -/
def strOptFalsy : Option String → Bool
  | none => true
  | some s => s.isEmpty

/-- The two failure sites of `_validate_pipe_parameters`.  In the Python
source both raise `ValueError`, distinguished by their messages; the spec
names the missing-stream failure `ConfigurationError` and the bad
operation-type failure `InvalidOperationTypeError`.  Each constructor
carries the raised message. -/
inductive PipeError where
  | configurationError (msg : String)
  | invalidOperationTypeError (msg : String)
  deriving DecidableEq, Repr

/-- `Stack.of(self)` environment: partition, region and account used to
format the event-bus ARN. -/
structure StackEnv where
  partition : String
  region : String
  account : String
  deriving DecidableEq, Repr

/-- The default event-bus ARN
`f"arn:{partition}:events:{region}:{account}:event-bus/default"`. -/
def defaultBusArn (env : StackEnv) : String :=
  "arn:" ++ env.partition ++ ":events:" ++ env.region ++ ":" ++ env.account
    ++ ":event-bus/default"

/-- `pipes.CfnPipe.PipeSourceDynamoDBStreamParametersProperty`. -/
structure PipeSourceDynamoDBStreamParameters where
  startingPosition : String
  batchSize : Nat
  deriving DecidableEq, Repr

/-- `pipes.CfnPipe.FilterProperty`: a serialized JSON pattern string. -/
structure FilterProperty where
  pattern : String
  deriving DecidableEq, Repr

/-- `pipes.CfnPipe.FilterCriteriaProperty`. -/
structure FilterCriteria where
  filters : List FilterProperty
  deriving DecidableEq, Repr

/-- `pipes.CfnPipe.PipeSourceParametersProperty`. -/
structure PipeSourceParameters where
  dynamoDbStreamParameters : PipeSourceDynamoDBStreamParameters
  filterCriteria : FilterCriteria
  deriving DecidableEq, Repr

/-- `pipes.CfnPipe.PipeTargetEventBridgeEventBusParametersProperty`. -/
structure PipeTargetEventBridgeEventBusParameters where
  detailType : String
  source : String
  deriving DecidableEq, Repr

/-- `pipes.CfnPipe.PipeTargetParametersProperty`. -/
structure PipeTargetParameters where
  inputTemplate : String
  eventBridgeEventBusParameters : PipeTargetEventBridgeEventBusParameters
  deriving DecidableEq, Repr

/-- IAM effect (`iam.Effect`). -/
inductive Effect where
  | ALLOW
  | DENY
  deriving DecidableEq, Repr

/-- `iam.PolicyStatement`.  A resource entry is `Option String` because the
Python code may place `ddb_table.table_stream_arn` (possibly `None`) into
the resource list. -/
structure PolicyStatement where
  actions : List String
  effect : Effect
  resources : List (Option String)
  deriving DecidableEq, Repr

/-- `iam.PolicyDocument`. -/
structure PolicyDocument where
  statements : List PolicyStatement
  deriving DecidableEq, Repr

/-- `iam.Role` as configured by `create_pipe_role`.  `roleArn` is the CDK
`role_arn` token of the construct. -/
structure Role where
  assumedBy : String
  description : String
  inlinePolicies : List (String × PolicyDocument)
  roleArn : String
  deriving DecidableEq, Repr

/-- `pipes.CfnPipe` with the properties `create_pipe` sets. -/
structure CfnPipe where
  constructId : String
  roleArn : String
  source : Option String
  sourceParameters : PipeSourceParameters
  target : String
  targetParameters : PipeTargetParameters
  deriving DecidableEq, Repr

/-- `_validate_pipe_parameters`: raises (returns `.error`) when the table
has no stream ARN, or when `event_name` is outside INSERT/MODIFY/REMOVE. -/
def validate_pipe_parameters (ddb_table : DdbTable) (event_name : String) :
    Except PipeError Unit :=
  if strOptFalsy ddb_table.tableStreamArn then
    .error (.configurationError
      ("DynamoDB table \x27" ++ ddb_table.tableName
        ++ "\x27 must have streams enabled"))
  else if event_name ∉ ["INSERT", "MODIFY", "REMOVE"] then
    .error (.invalidOperationTypeError
      ("event_name must be one of: INSERT, MODIFY, REMOVE. Got: \x27"
        ++ event_name ++ "\x27"))
  else
    .ok ()

/-- `_create_source_parameters`: batch size 1, starting position LATEST,
and one filter whose pattern is the `json.dumps` of
`{"eventName": [event_name],
  "dynamodb": {"Keys": {"PK": {"S": [{"prefix": "USER#"}]}}}}`
(the key prefix is the hardcoded `"USER#"`). -/
def create_source_parameters (event_name : String) : PipeSourceParameters :=
  { dynamoDbStreamParameters :=
      { startingPosition := "LATEST", batchSize := 1 }
    filterCriteria :=
      { filters :=
          [ { pattern :=
                Json.render (Json.obj
                  [ ("eventName", Json.arr [Json.str event_name])
                  , ("dynamodb", Json.obj
                      [ ("Keys", Json.obj
                          [ ("PK", Json.obj
                              [ ("S", Json.arr
                                  [Json.obj [("prefix", Json.str "USER#")]]) ]) ]) ]) ]) } ] } }

/-- `_create_target_parameters`: the pipe's input template, and event-bus
parameters with `detail_type=operation_type`, `source=event_source_name`. -/
def create_target_parameters (operation_type input_template event_source_name : String) :
    PipeTargetParameters :=
  { inputTemplate := input_template
    eventBridgeEventBusParameters :=
      { detailType := operation_type, source := event_source_name } }

/-- `_create_source_policy`: one ALLOW statement with the four read-only
stream actions, scoped to exactly the table's stream ARN. -/
def create_source_policy (ddb_table : DdbTable) : PolicyDocument :=
  { statements :=
      [ { actions :=
            [ "dynamodb:DescribeStream"
            , "dynamodb:GetRecords"
            , "dynamodb:GetShardIterator"
            , "dynamodb:ListStreams" ]
          effect := .ALLOW
          resources := [ddb_table.tableStreamArn] } ] }

/-- `_create_target_policy`: one ALLOW statement granting only
`events:PutEvents`, scoped to exactly the default event-bus ARN. -/
def create_target_policy (env : StackEnv) : PolicyDocument :=
  { statements :=
      [ { actions := ["events:PutEvents"]
          effect := .ALLOW
          resources := [some (defaultBusArn env)] } ] }

/-- `create_pipe_role`: the shared IAM role with the source and target
inline policies.  `roleArn` is the CDK-generated ARN token for the
`"PipeIAMRole"` construct. -/
def create_pipe_role (env : StackEnv) (ddb_table : DdbTable) : Role :=
  { assumedBy := "pipes.amazonaws.com"
    description := "Role for EventBridge Pipes"
    inlinePolicies :=
      [ ("SourcePolicy", create_source_policy ddb_table)
      , ("TargetPolicy", create_target_policy env) ]
    roleArn := "PipeIAMRoleArn" }

/-- `create_pipe`: validates the parameters, then builds the `CfnPipe`
resource; a validation failure aborts before any resource is built. -/
def create_pipe (env : StackEnv) (operation_type event_name input_template : String)
    (ddb_table : DdbTable) (role : Role) (event_source_name : String) :
    Except PipeError CfnPipe := do
  validate_pipe_parameters ddb_table event_name
  let source_params := create_source_parameters event_name
  let target_params :=
    create_target_parameters operation_type input_template event_source_name
  .ok
    { constructId := operation_type ++ "Pipe"
      roleArn := role.roleArn
      source := ddb_table.tableStreamArn
      sourceParameters := source_params
      target := defaultBusArn env
      targetParameters := target_params }

/-- The `UserEventsPipeline` construct after `__init__` ran: the table, the
shared role, and the three pipes. -/
structure UserEventsPipeline where
  ddb : DdbTable
  pipeIamRole : Role
  userDeletedPipe : CfnPipe
  userCreatedPipe : CfnPipe
  userModifiedPipe : CfnPipe
  deriving DecidableEq, Repr

/-- The input template of the UserDeleted (REMOVE) pipe. -/
def removeTemplate : String :=
  "\x7b\"userId\": <$.dynamodb.Keys.PK.S>\x7d"

/-- The input template of the UserCreated (INSERT) pipe. -/
def insertTemplate : String :=
  "\x7b\"userId\": <$.dynamodb.Keys.PK.S>\x7d"

/-- The input template of the UserModified (MODIFY) pipe. -/
def modifyTemplate : String :=
  "\x7b\"userId\": <$.dynamodb.Keys.PK.S>, \"oldImage\": <$.dynamodb.OldImage>, \"newImage\": <$.dynamodb.NewImage>\x7d"

/-- The table declared by `UserEventsPipeline.__init__`: id `"DDBTable"`,
string partition key `PK`, string sort key `SK`, and a
`NEW_AND_OLD_IMAGES` stream. -/
def pipelineTable : DdbTable :=
  mkTable "DDBTable" { name := "PK", type := "S" } { name := "SK", type := "S" }
    (some .NEW_AND_OLD_IMAGES)

/-- `UserEventsPipeline.__init__` (default `event_source_name="myapp.users"`):
declares the table with PK/SK string keys and a NEW_AND_OLD_IMAGES stream,
creates the shared role, and builds the UserDeleted, UserCreated and
UserModified pipes in that order.  A raised `ValueError` propagates as
`.error`. -/
def initPipeline (env : StackEnv) (event_source_name : String) :
    Except PipeError UserEventsPipeline := do
  let ddb := pipelineTable
  let pipe_iam_role := create_pipe_role env ddb
  let deleted ← create_pipe env "UserDeleted" "REMOVE" removeTemplate
    ddb pipe_iam_role event_source_name
  let created ← create_pipe env "UserCreated" "INSERT" insertTemplate
    ddb pipe_iam_role event_source_name
  let modified ← create_pipe env "UserModified" "MODIFY" modifyTemplate
    ddb pipe_iam_role event_source_name
  .ok
    { ddb := ddb
      pipeIamRole := pipe_iam_role
      userDeletedPipe := deleted
      userCreatedPipe := created
      userModifiedPipe := modified }

/-- The placeholders `<...>` occurring in an input-template string, in
order: a state machine over the characters, accumulating (reversed) the
characters between `<` and `>` (`none` = outside a placeholder). -/
def extractGo : List Char → Option (List Char) → List String
  | [], _ => []
  | c :: rest, none =>
      if c = '<' then extractGo rest (some []) else extractGo rest none
  | c :: rest, some acc =>
      if c = '>' then String.mk acc.reverse :: extractGo rest none
      else extractGo rest (some (c :: acc))

/-- The list of `<...>` placeholder paths referenced by a template. -/
def placeholders (template : String) : List String :=
  extractGo template.data none

/-- Split a string at the dots (for placeholder paths like
`$.dynamodb.Keys.PK.S`). -/
def splitDotsGo : List Char → List Char → List String
  | [], acc => [String.mk acc.reverse]
  | c :: rest, acc =>
      if c = '.' then String.mk acc.reverse :: splitDotsGo rest []
      else splitDotsGo rest (c :: acc)

/-- Look up a key in a JSON object. -/
def Json.get (j : Json) (key : String) : Option Json :=
  match j with
  | .objCons k v tl => if k = key then some v else tl.get key
  | _ => none

/-- Follow a path of keys through nested JSON objects. -/
def Json.getPath : Json → List String → Option Json
  | j, [] => some j
  | j, k :: ks =>
      match j.get k with
      | some v => v.getPath ks
      | none => none

/-- Modelled from the spec: the downstream managed service's evaluation of
a `<$.path>` placeholder against a stream-record JSON event (the repository
only configures template strings; evaluation happens inside EventBridge
Pipes).  The path after `$` is followed through the event and the value is
substituted in its JSON rendering. -/
def resolvePlaceholder (event : Json) (path : String) : Option String :=
  match splitDotsGo path.data [] with
  | "$" :: ks => (event.getPath ks).map Json.render
  | _ => none

/-- Substitute every `<...>` placeholder in a template using `resolve`;
fails if a placeholder is unterminated or cannot be resolved.  State
machine over the characters, structurally recursive. -/
def substGo (resolve : String → Option String) :
    List Char → Option (List Char) → Option (List Char)
  | [], none => some []
  | [], some _ => none
  | c :: rest, none =>
      if c = '<' then substGo resolve rest (some [])
      else (substGo resolve rest none).map (c :: ·)
  | c :: rest, some acc =>
      if c = '>' then
        match resolve (String.mk acc.reverse) with
        | some v => (substGo resolve rest none).map (v.data ++ ·)
        | none => none
      else substGo resolve rest (some (c :: acc))

/-- Modelled from the spec: evaluate an input template against a JSON
event, replacing each `<$.path>` placeholder by the JSON rendering of the
value at that path in the event. -/
def evalInputTemplate (template : String) (event : Json) : Option String :=
  (substGo (resolvePlaceholder event) template.data none).map String.mk

/-- The stream record for the scenario ChangeEvent
`{operationType: "INSERT", key: {PK: "USER#123", SK: "PROFILE"}}` as the
pipe sees it. -/
def insertScenarioEvent : Json :=
  Json.obj
    [ ("eventName", Json.str "INSERT")
    , ("dynamodb", Json.obj
        [ ("Keys", Json.obj
            [ ("PK", Json.obj [("S", Json.str "USER#123")])
            , ("SK", Json.obj [("S", Json.str "PROFILE")]) ]) ]) ]

/-! Sample concrete inputs used to instantiate the theorems. -/

/-- A concrete stack environment. -/
def sampleEnv : StackEnv :=
  { partition := "aws", region := "us-east-1", account := "111122223333" }

/-- A table declared without a stream (`table_stream_arn` is `None`). -/
def streamlessTable : DdbTable :=
  mkTable "Orders" { name := "PK", type := "S" } { name := "SK", type := "S" } none

/-- A table declared with a NEW_AND_OLD_IMAGES stream. -/
def streamedTable : DdbTable :=
  mkTable "Users" { name := "PK", type := "S" } { name := "SK", type := "S" }
    (some .NEW_AND_OLD_IMAGES)

/-- A concrete role for instantiating `create_pipe`. -/
def sampleRole : Role := create_pipe_role sampleEnv streamedTable

/-! Helper lemmas shared by the claim theorems. -/

/-- Validation succeeds exactly on a truthy stream ARN and a known
operation type. -/
theorem validate_ok_of (tbl : DdbTable) (en : String)
    (h1 : strOptFalsy tbl.tableStreamArn = false)
    (h2 : en ∈ ["INSERT", "MODIFY", "REMOVE"]) :
    validate_pipe_parameters tbl en = .ok () := by
  unfold validate_pipe_parameters
  rw [h1]
  simp [h2]

/-- A falsy stream ARN makes validation raise the missing-stream error. -/
theorem validate_error_missing_stream (tbl : DdbTable) (en : String)
    (h : strOptFalsy tbl.tableStreamArn = true) :
    validate_pipe_parameters tbl en =
      .error (.configurationError
        ("DynamoDB table \x27" ++ tbl.tableName ++ "\x27 must have streams enabled")) := by
  unfold validate_pipe_parameters
  rw [h]
  simp

/-- A truthy stream ARN and an unknown operation type make validation raise
the bad-operation-type error. -/
theorem validate_error_bad_op (tbl : DdbTable) (en : String)
    (h1 : strOptFalsy tbl.tableStreamArn = false)
    (h2 : en ∉ ["INSERT", "MODIFY", "REMOVE"]) :
    validate_pipe_parameters tbl en =
      .error (.invalidOperationTypeError
        ("event_name must be one of: INSERT, MODIFY, REMOVE. Got: \x27" ++ en ++ "\x27")) := by
  unfold validate_pipe_parameters
  rw [h1]
  simp [h2]

/-- Inversion for a successful `create_pipe`: validation succeeded and the
resulting pipe is the record built from the helpers. -/
theorem create_pipe_ok_inv {env : StackEnv} {op en it : String}
    {tbl : DdbTable} {role : Role} {esn : String} {p : CfnPipe}
    (h : create_pipe env op en it tbl role esn = .ok p) :
    validate_pipe_parameters tbl en = .ok () ∧
    p = { constructId := op ++ "Pipe"
          roleArn := role.roleArn
          source := tbl.tableStreamArn
          sourceParameters := create_source_parameters en
          target := defaultBusArn env
          targetParameters := create_target_parameters op it esn } := by
  unfold create_pipe at h
  cases hval : validate_pipe_parameters tbl en with
  | error e =>
      rw [hval] at h
      exact absurd h (by simp [Bind.bind, Except.bind])
  | ok u =>
      cases u
      rw [hval] at h
      simp only [Bind.bind, Except.bind, Except.ok.injEq] at h
      exact ⟨rfl, h.symm⟩

/-- A validation failure propagates through `create_pipe` unchanged (no
pipe resource is built). -/
theorem create_pipe_error_of_validate {env : StackEnv} {op en it : String}
    {tbl : DdbTable} {role : Role} {esn : String} {e : PipeError}
    (h : validate_pipe_parameters tbl en = .error e) :
    create_pipe env op en it tbl role esn = .error e := by
  unfold create_pipe
  rw [h]
  rfl

/-- The value `initPipeline` computes, written out; `initPipeline_eq`
checks by `rfl` that this is what the constructor produces. -/
def pipelineValue (env : StackEnv) (event_source_name : String) : UserEventsPipeline :=
  { ddb := pipelineTable
    pipeIamRole := create_pipe_role env pipelineTable
    userDeletedPipe :=
      { constructId := "UserDeleted" ++ "Pipe"
        roleArn := (create_pipe_role env pipelineTable).roleArn
        source := pipelineTable.tableStreamArn
        sourceParameters := create_source_parameters "REMOVE"
        target := defaultBusArn env
        targetParameters :=
          create_target_parameters "UserDeleted" removeTemplate event_source_name }
    userCreatedPipe :=
      { constructId := "UserCreated" ++ "Pipe"
        roleArn := (create_pipe_role env pipelineTable).roleArn
        source := pipelineTable.tableStreamArn
        sourceParameters := create_source_parameters "INSERT"
        target := defaultBusArn env
        targetParameters :=
          create_target_parameters "UserCreated" insertTemplate event_source_name }
    userModifiedPipe :=
      { constructId := "UserModified" ++ "Pipe"
        roleArn := (create_pipe_role env pipelineTable).roleArn
        source := pipelineTable.tableStreamArn
        sourceParameters := create_source_parameters "MODIFY"
        target := defaultBusArn env
        targetParameters :=
          create_target_parameters "UserModified" modifyTemplate event_source_name } }

/-- `UserEventsPipeline.__init__` always succeeds and produces
`pipelineValue`: the table is declared with a stream and all three
operation types are valid, so both validation branches pass. -/
theorem initPipeline_eq (env : StackEnv) (event_source_name : String) :
    initPipeline env event_source_name = .ok (pipelineValue env event_source_name) := rfl

/-- Inversion for `initPipeline`. -/
theorem initPipeline_ok_inv {env : StackEnv} {event_source_name : String}
    {p : UserEventsPipeline}
    (h : initPipeline env event_source_name = .ok p) :
    p = pipelineValue env event_source_name := by
  rw [initPipeline_eq] at h
  exact (Except.ok.inj h).symm

/-- Inversion for a failing `create_pipe`: the error came from validation. -/
theorem create_pipe_error_inv {env : StackEnv} {op en it : String}
    {tbl : DdbTable} {role : Role} {esn : String} {e : PipeError}
    (h : create_pipe env op en it tbl role esn = .error e) :
    validate_pipe_parameters tbl en = .error e := by
  unfold create_pipe at h
  cases hval : validate_pipe_parameters tbl en with
  | error e2 =>
      rw [hval] at h
      simp only [Bind.bind, Except.bind, Except.error.injEq] at h
      rw [h]
  | ok u =>
      cases u
      rw [hval] at h
      exact absurd h (by simp [Bind.bind, Except.bind])

/-- The pipe `create_pipe` builds for the sample INSERT instantiation. -/
def samplePipe : CfnPipe :=
  { constructId := "UserCreated" ++ "Pipe"
    roleArn := sampleRole.roleArn
    source := streamedTable.tableStreamArn
    sourceParameters := create_source_parameters "INSERT"
    target := defaultBusArn sampleEnv
    targetParameters := create_target_parameters "UserCreated" insertTemplate "myapp.users" }

/-- C1: for every operation type in {INSERT, MODIFY, REMOVE}, the filter
pattern of the generated pipe is exactly the JSON object
`{"eventName": [<op>], "dynamodb": {"Keys": {"PK": {"S": [{"prefix": "USER#"}]}}}}`
(serialized by `json.dumps`): the pipe carries a single filter, its
`eventName` array contains exactly that one operation type, and the
key-prefix filter is always the string `"USER#"`. -/
theorem filter_pattern_exact (env : StackEnv) (op en it : String)
    (tbl : DdbTable) (role : Role) (esn : String) (p : CfnPipe)
    (_hen : en ∈ ["INSERT", "MODIFY", "REMOVE"])
    (h : create_pipe env op en it tbl role esn = .ok p) :
    p.sourceParameters.filterCriteria.filters =
      [ { pattern := Json.render (Json.obj
            [ ("eventName", Json.arr [Json.str en])
            , ("dynamodb", Json.obj
                [ ("Keys", Json.obj
                    [ ("PK", Json.obj
                        [ ("S", Json.arr [Json.obj [("prefix", Json.str "USER#")]]) ]) ]) ]) ]) } ] := by
  obtain ⟨-, rfl⟩ := create_pipe_ok_inv h
  rfl

/-- Witness for C1 at the concrete INSERT instantiation. -/
theorem filter_pattern_exact_witness :
    samplePipe.sourceParameters.filterCriteria.filters =
      [ { pattern := Json.render (Json.obj
            [ ("eventName", Json.arr [Json.str "INSERT"])
            , ("dynamodb", Json.obj
                [ ("Keys", Json.obj
                    [ ("PK", Json.obj
                        [ ("S", Json.arr [Json.obj [("prefix", Json.str "USER#")]]) ]) ]) ]) ]) } ] :=
  filter_pattern_exact sampleEnv "UserCreated" "INSERT" insertTemplate
    streamedTable sampleRole "myapp.users" samplePipe (by decide) rfl

/-- C2: for every operation-type string outside {INSERT, MODIFY, REMOVE}
(on a table whose stream check passes), `create_pipe` fails with the
`InvalidOperationTypeError` failure, and for every string inside the set
the operation-type check never raises that failure. -/
theorem create_pipe_invalid_operation_type :
    (∀ (env : StackEnv) (op en it : String) (tbl : DdbTable) (role : Role) (esn : String),
        strOptFalsy tbl.tableStreamArn = false →
        en ∉ ["INSERT", "MODIFY", "REMOVE"] →
        create_pipe env op en it tbl role esn =
          .error (.invalidOperationTypeError
            ("event_name must be one of: INSERT, MODIFY, REMOVE. Got: \x27" ++ en ++ "\x27"))) ∧
    (∀ (tbl : DdbTable) (en : String), en ∈ ["INSERT", "MODIFY", "REMOVE"] →
        ∀ m, validate_pipe_parameters tbl en ≠ .error (.invalidOperationTypeError m)) := by
  constructor
  · intro env op en it tbl role esn h1 h2
    exact create_pipe_error_of_validate (validate_error_bad_op tbl en h1 h2)
  · intro tbl en hen m h
    unfold validate_pipe_parameters at h
    split at h
    · exact PipeError.noConfusion (Except.error.inj h)
    · exact Except.noConfusion h

/-- Witness for C2 at `en = "UPDATE"` on the streamed sample table. -/
theorem create_pipe_invalid_operation_type_witness :
    create_pipe sampleEnv "UserUpdated" "UPDATE" insertTemplate
        streamedTable sampleRole "myapp.users" =
      .error (.invalidOperationTypeError
        ("event_name must be one of: INSERT, MODIFY, REMOVE. Got: \x27" ++ "UPDATE" ++ "\x27")) :=
  create_pipe_invalid_operation_type.1 sampleEnv "UserUpdated" "UPDATE"
    insertTemplate streamedTable sampleRole "myapp.users" (by decide) (by decide)

/-- C3: for every table reference with no change-stream identifier,
`create_pipe` fails with the `ConfigurationError` failure (so no pipe
resource is constructed), and for every table with a stream the stream
check never raises that failure. -/
theorem create_pipe_missing_stream :
    (∀ (env : StackEnv) (op en it : String) (tbl : DdbTable) (role : Role) (esn : String),
        tbl.tableStreamArn = none →
        create_pipe env op en it tbl role esn =
          .error (.configurationError
            ("DynamoDB table \x27" ++ tbl.tableName ++ "\x27 must have streams enabled"))) ∧
    (∀ (tbl : DdbTable) (en : String), strOptFalsy tbl.tableStreamArn = false →
        ∀ m, validate_pipe_parameters tbl en ≠ .error (.configurationError m)) := by
  constructor
  · intro env op en it tbl role esn h1
    refine create_pipe_error_of_validate (validate_error_missing_stream tbl en ?_)
    rw [h1]
    rfl
  · intro tbl en h1 m h
    unfold validate_pipe_parameters at h
    rw [h1] at h
    simp only [Bool.false_eq_true, if_false] at h
    split at h
    · exact PipeError.noConfusion (Except.error.inj h)
    · exact Except.noConfusion h

/-- Witness for C3 at the concrete streamless sample table. -/
theorem create_pipe_missing_stream_witness :
    create_pipe sampleEnv "UserCreated" "INSERT" insertTemplate
        streamlessTable sampleRole "myapp.users" =
      .error (.configurationError
        ("DynamoDB table \x27" ++ "Orders" ++ "\x27 must have streams enabled")) :=
  create_pipe_missing_stream.1 sampleEnv "UserCreated" "INSERT" insertTemplate
    streamlessTable sampleRole "myapp.users" rfl

/-- C4: every failure of `create_pipe` is one of exactly two kinds —
`ConfigurationError` when the source table's stream ARN is missing, and
`InvalidOperationTypeError` when the operation type is outside the fixed
enumeration — and the two kinds are distinct. -/
theorem create_pipe_two_error_kinds :
    (∀ (env : StackEnv) (op en it : String) (tbl : DdbTable) (role : Role)
        (esn : String) (e : PipeError),
        create_pipe env op en it tbl role esn = .error e →
        (strOptFalsy tbl.tableStreamArn = true ∧
          e = .configurationError
            ("DynamoDB table \x27" ++ tbl.tableName ++ "\x27 must have streams enabled")) ∨
        (strOptFalsy tbl.tableStreamArn = false ∧ en ∉ ["INSERT", "MODIFY", "REMOVE"] ∧
          e = .invalidOperationTypeError
            ("event_name must be one of: INSERT, MODIFY, REMOVE. Got: \x27" ++ en ++ "\x27"))) ∧
    (∀ m m2, PipeError.configurationError m ≠ PipeError.invalidOperationTypeError m2) := by
  constructor
  · intro env op en it tbl role esn e h
    have hv := create_pipe_error_inv h
    unfold validate_pipe_parameters at hv
    split at hv
    · exact Or.inl ⟨by assumption, (Except.error.inj hv).symm⟩
    · split at hv
      · refine Or.inr ⟨?_, by assumption, (Except.error.inj hv).symm⟩
        rename_i hc _
        exact Bool.not_eq_true _ ▸ hc
      · exact Except.noConfusion hv
  · intro m m2 h
    exact PipeError.noConfusion h

/-- Witness for C4: the missing-stream failure at a concrete input. -/
theorem create_pipe_two_error_kinds_witness :
    (strOptFalsy streamlessTable.tableStreamArn = true ∧
      PipeError.configurationError
          ("DynamoDB table \x27" ++ "Orders" ++ "\x27 must have streams enabled") =
        .configurationError
          ("DynamoDB table \x27" ++ streamlessTable.tableName ++ "\x27 must have streams enabled")) ∨
    (strOptFalsy streamlessTable.tableStreamArn = false ∧
      "INSERT" ∉ ["INSERT", "MODIFY", "REMOVE"] ∧
      PipeError.configurationError
          ("DynamoDB table \x27" ++ "Orders" ++ "\x27 must have streams enabled") =
        .invalidOperationTypeError
          ("event_name must be one of: INSERT, MODIFY, REMOVE. Got: \x27" ++ "INSERT" ++ "\x27")) :=
  create_pipe_two_error_kinds.1 sampleEnv "UserCreated" "INSERT" insertTemplate
    streamlessTable sampleRole "myapp.users"
    (.configurationError
      ("DynamoDB table \x27" ++ "Orders" ++ "\x27 must have streams enabled")) rfl

/-- C5: the transform template of the MODIFY pipe references the key
placeholder and both the old-image and new-image placeholders, while the
INSERT and REMOVE templates reference only the key placeholder: the
placeholder lists are exactly
`[$.dynamodb.Keys.PK.S, $.dynamodb.OldImage, $.dynamodb.NewImage]` and
`[$.dynamodb.Keys.PK.S]` respectively. -/
theorem pipeline_template_placeholders (env : StackEnv) (name : String)
    (p : UserEventsPipeline) (h : initPipeline env name = .ok p) :
    placeholders p.userModifiedPipe.targetParameters.inputTemplate =
      ["$.dynamodb.Keys.PK.S", "$.dynamodb.OldImage", "$.dynamodb.NewImage"] ∧
    placeholders p.userCreatedPipe.targetParameters.inputTemplate =
      ["$.dynamodb.Keys.PK.S"] ∧
    placeholders p.userDeletedPipe.targetParameters.inputTemplate =
      ["$.dynamodb.Keys.PK.S"] := by
  obtain rfl := initPipeline_ok_inv h
  exact ⟨(by decide :
      placeholders modifyTemplate =
        ["$.dynamodb.Keys.PK.S", "$.dynamodb.OldImage", "$.dynamodb.NewImage"]),
    (by decide : placeholders insertTemplate = ["$.dynamodb.Keys.PK.S"]),
    (by decide : placeholders removeTemplate = ["$.dynamodb.Keys.PK.S"])⟩

/-- Witness for C5 at a concrete environment. -/
theorem pipeline_template_placeholders_witness :
    placeholders (pipelineValue sampleEnv "myapp.users").userModifiedPipe.targetParameters.inputTemplate =
      ["$.dynamodb.Keys.PK.S", "$.dynamodb.OldImage", "$.dynamodb.NewImage"] ∧
    placeholders (pipelineValue sampleEnv "myapp.users").userCreatedPipe.targetParameters.inputTemplate =
      ["$.dynamodb.Keys.PK.S"] ∧
    placeholders (pipelineValue sampleEnv "myapp.users").userDeletedPipe.targetParameters.inputTemplate =
      ["$.dynamodb.Keys.PK.S"] :=
  pipeline_template_placeholders sampleEnv "myapp.users"
    (pipelineValue sampleEnv "myapp.users") rfl

/-- C6: the three pipes built for the same table carry the pairwise
distinct detail types UserCreated, UserModified and UserDeleted (paired
with the INSERT, MODIFY and REMOVE source filters respectively), and all
three reference the single shared role. -/
theorem pipeline_detail_types_shared_role (env : StackEnv) (name : String)
    (p : UserEventsPipeline) (h : initPipeline env name = .ok p) :
    p.userCreatedPipe.targetParameters.eventBridgeEventBusParameters.detailType = "UserCreated" ∧
    p.userModifiedPipe.targetParameters.eventBridgeEventBusParameters.detailType = "UserModified" ∧
    p.userDeletedPipe.targetParameters.eventBridgeEventBusParameters.detailType = "UserDeleted" ∧
    p.userCreatedPipe.sourceParameters = create_source_parameters "INSERT" ∧
    p.userModifiedPipe.sourceParameters = create_source_parameters "MODIFY" ∧
    p.userDeletedPipe.sourceParameters = create_source_parameters "REMOVE" ∧
    p.userCreatedPipe.targetParameters.eventBridgeEventBusParameters.detailType ≠
      p.userModifiedPipe.targetParameters.eventBridgeEventBusParameters.detailType ∧
    p.userCreatedPipe.targetParameters.eventBridgeEventBusParameters.detailType ≠
      p.userDeletedPipe.targetParameters.eventBridgeEventBusParameters.detailType ∧
    p.userModifiedPipe.targetParameters.eventBridgeEventBusParameters.detailType ≠
      p.userDeletedPipe.targetParameters.eventBridgeEventBusParameters.detailType ∧
    p.userCreatedPipe.roleArn = p.pipeIamRole.roleArn ∧
    p.userModifiedPipe.roleArn = p.pipeIamRole.roleArn ∧
    p.userDeletedPipe.roleArn = p.pipeIamRole.roleArn := by
  obtain rfl := initPipeline_ok_inv h
  refine ⟨rfl, rfl, rfl, rfl, rfl, rfl,
    (by decide : ("UserCreated" : String) ≠ "UserModified"),
    (by decide : ("UserCreated" : String) ≠ "UserDeleted"),
    (by decide : ("UserModified" : String) ≠ "UserDeleted"), rfl, rfl, rfl⟩

/-- Witness for C6 at a concrete environment. -/
theorem pipeline_detail_types_shared_role_witness :
    (pipelineValue sampleEnv "myapp.users").userCreatedPipe.targetParameters.eventBridgeEventBusParameters.detailType = "UserCreated" ∧
    (pipelineValue sampleEnv "myapp.users").userModifiedPipe.targetParameters.eventBridgeEventBusParameters.detailType = "UserModified" ∧
    (pipelineValue sampleEnv "myapp.users").userDeletedPipe.targetParameters.eventBridgeEventBusParameters.detailType = "UserDeleted" ∧
    (pipelineValue sampleEnv "myapp.users").userCreatedPipe.sourceParameters = create_source_parameters "INSERT" ∧
    (pipelineValue sampleEnv "myapp.users").userModifiedPipe.sourceParameters = create_source_parameters "MODIFY" ∧
    (pipelineValue sampleEnv "myapp.users").userDeletedPipe.sourceParameters = create_source_parameters "REMOVE" ∧
    (pipelineValue sampleEnv "myapp.users").userCreatedPipe.targetParameters.eventBridgeEventBusParameters.detailType ≠
      (pipelineValue sampleEnv "myapp.users").userModifiedPipe.targetParameters.eventBridgeEventBusParameters.detailType ∧
    (pipelineValue sampleEnv "myapp.users").userCreatedPipe.targetParameters.eventBridgeEventBusParameters.detailType ≠
      (pipelineValue sampleEnv "myapp.users").userDeletedPipe.targetParameters.eventBridgeEventBusParameters.detailType ∧
    (pipelineValue sampleEnv "myapp.users").userModifiedPipe.targetParameters.eventBridgeEventBusParameters.detailType ≠
      (pipelineValue sampleEnv "myapp.users").userDeletedPipe.targetParameters.eventBridgeEventBusParameters.detailType ∧
    (pipelineValue sampleEnv "myapp.users").userCreatedPipe.roleArn = (pipelineValue sampleEnv "myapp.users").pipeIamRole.roleArn ∧
    (pipelineValue sampleEnv "myapp.users").userModifiedPipe.roleArn = (pipelineValue sampleEnv "myapp.users").pipeIamRole.roleArn ∧
    (pipelineValue sampleEnv "myapp.users").userDeletedPipe.roleArn = (pipelineValue sampleEnv "myapp.users").pipeIamRole.roleArn :=
  pipeline_detail_types_shared_role sampleEnv "myapp.users"
    (pipelineValue sampleEnv "myapp.users") rfl

/-- C7: the shared role's source policy is exactly one ALLOW statement with
the four read-only stream actions scoped to the singleton list holding the
table's stream identifier, and its target policy is exactly one ALLOW
statement granting only `events:PutEvents` scoped to the singleton list
holding the default-bus identifier; every pipe built from the same table
and environment reads that stream and targets that bus. -/
theorem role_policy_resource_scope (env : StackEnv) (tbl : DdbTable) (arn : String)
    (h : tbl.tableStreamArn = some arn) :
    (create_pipe_role env tbl).inlinePolicies =
      [ ("SourcePolicy",
          { statements :=
              [ { actions :=
                    [ "dynamodb:DescribeStream"
                    , "dynamodb:GetRecords"
                    , "dynamodb:GetShardIterator"
                    , "dynamodb:ListStreams" ]
                  effect := .ALLOW
                  resources := [some arn] } ] })
      , ("TargetPolicy",
          { statements :=
              [ { actions := ["events:PutEvents"]
                  effect := .ALLOW
                  resources := [some (defaultBusArn env)] } ] }) ] ∧
    (∀ (op en it : String) (role : Role) (esn : String) (p : CfnPipe),
        create_pipe env op en it tbl role esn = .ok p →
        p.source = some arn ∧ p.target = defaultBusArn env) := by
  constructor
  · unfold create_pipe_role create_source_policy create_target_policy
    rw [h]
  · intro op en it role esn p hp
    obtain ⟨-, rfl⟩ := create_pipe_ok_inv hp
    exact ⟨h, rfl⟩

/-- Witness for C7 at the concrete streamed sample table. -/
theorem role_policy_resource_scope_witness :
    ((create_pipe_role sampleEnv streamedTable).inlinePolicies =
      [ ("SourcePolicy",
          { statements :=
              [ { actions :=
                    [ "dynamodb:DescribeStream"
                    , "dynamodb:GetRecords"
                    , "dynamodb:GetShardIterator"
                    , "dynamodb:ListStreams" ]
                  effect := .ALLOW
                  resources := [some ("Users" ++ "StreamArn")] } ] })
      , ("TargetPolicy",
          { statements :=
              [ { actions := ["events:PutEvents"]
                  effect := .ALLOW
                  resources := [some (defaultBusArn sampleEnv)] } ] }) ]) ∧
    (∀ (op en it : String) (role : Role) (esn : String) (p : CfnPipe),
        create_pipe sampleEnv op en it streamedTable role esn = .ok p →
        p.source = some ("Users" ++ "StreamArn") ∧ p.target = defaultBusArn sampleEnv) :=
  role_policy_resource_scope sampleEnv streamedTable ("Users" ++ "StreamArn") rfl

/-- C8: the pipeline's table is declared with the NEW_AND_OLD_IMAGES
stream view, every source-parameter block is built with batch size exactly
1 and starting position LATEST, and each of the three generated pipes
carries that stream configuration. -/
theorem pipeline_stream_source_config (env : StackEnv) (name : String)
    (p : UserEventsPipeline) (h : initPipeline env name = .ok p) :
    p.ddb.stream = some .NEW_AND_OLD_IMAGES ∧
    (∀ en, (create_source_parameters en).dynamoDbStreamParameters =
        { startingPosition := "LATEST", batchSize := 1 }) ∧
    (∀ q ∈ [p.userDeletedPipe, p.userCreatedPipe, p.userModifiedPipe],
        q.sourceParameters.dynamoDbStreamParameters =
          { startingPosition := "LATEST", batchSize := 1 }) := by
  obtain rfl := initPipeline_ok_inv h
  refine ⟨rfl, fun en => rfl, ?_⟩
  intro q hq
  simp only [List.mem_cons, List.not_mem_nil, or_false] at hq
  rcases hq with rfl | rfl | rfl <;> rfl

/-- Witness for C8 at a concrete environment. -/
theorem pipeline_stream_source_config_witness :
    (pipelineValue sampleEnv "myapp.users").ddb.stream = some .NEW_AND_OLD_IMAGES ∧
    (∀ en, (create_source_parameters en).dynamoDbStreamParameters =
        { startingPosition := "LATEST", batchSize := 1 }) ∧
    (∀ q ∈ [(pipelineValue sampleEnv "myapp.users").userDeletedPipe,
            (pipelineValue sampleEnv "myapp.users").userCreatedPipe,
            (pipelineValue sampleEnv "myapp.users").userModifiedPipe],
        q.sourceParameters.dynamoDbStreamParameters =
          { startingPosition := "LATEST", batchSize := 1 }) :=
  pipeline_stream_source_config sampleEnv "myapp.users"
    (pipelineValue sampleEnv "myapp.users") rfl

/-- C9: evaluating the INSERT pipe's transform template on the stream
record for ChangeEvent
`{operationType: "INSERT", key: {PK: "USER#123", SK: "PROFILE"}}` yields
the output JSON `{"userId": "USER#123"}` (template evaluation itself is
performed by the downstream managed service and is modelled from the
spec), and the INSERT pipe built by the pipeline carries exactly that
template. -/
theorem insert_scenario_template_output :
    evalInputTemplate insertTemplate insertScenarioEvent =
      some "\x7b\"userId\": \"USER#123\"\x7d" ∧
    (∀ (env : StackEnv) (name : String) (p : UserEventsPipeline),
        initPipeline env name = .ok p →
        p.userCreatedPipe.targetParameters.inputTemplate = insertTemplate) := by
  refine ⟨by decide, ?_⟩
  intro env name p h
  obtain rfl := initPipeline_ok_inv h
  rfl

/-- Witness for C9 at a concrete environment. -/
theorem insert_scenario_template_output_witness :
    evalInputTemplate insertTemplate insertScenarioEvent =
      some "\x7b\"userId\": \"USER#123\"\x7d" ∧
    (pipelineValue sampleEnv "myapp.users").userCreatedPipe.targetParameters.inputTemplate =
      insertTemplate :=
  ⟨insert_scenario_template_output.1,
   insert_scenario_template_output.2 sampleEnv "myapp.users"
     (pipelineValue sampleEnv "myapp.users") rfl⟩

/-- C10: constructing the pipeline never takes the missing-stream error
branch: the table is declared with a stream, so `initPipeline` always
succeeds, its table's stream ARN is truthy, and no validation call on that
table can raise the `ConfigurationError` failure. -/
theorem pipeline_stream_check_unreachable (env : StackEnv) (name : String) :
    (∃ p, initPipeline env name = .ok p ∧
        p.ddb.stream = some .NEW_AND_OLD_IMAGES ∧
        strOptFalsy p.ddb.tableStreamArn = false) ∧
    (∀ m, initPipeline env name ≠ .error (.configurationError m)) ∧
    (∀ en m, validate_pipe_parameters pipelineTable en ≠
        .error (.configurationError m)) := by
  refine ⟨⟨pipelineValue env name, initPipeline_eq env name, rfl, rfl⟩, ?_, ?_⟩
  · intro m h
    rw [initPipeline_eq] at h
    exact Except.noConfusion h
  · intro en m h
    unfold validate_pipe_parameters at h
    split at h
    · exact absurd (by assumption : strOptFalsy pipelineTable.tableStreamArn = true)
        (by decide)
    · split at h
      · exact PipeError.noConfusion (Except.error.inj h)
      · exact Except.noConfusion h

/-- Witness for C10 at a concrete environment. -/
theorem pipeline_stream_check_unreachable_witness :
    (∃ p, initPipeline sampleEnv "myapp.users" = .ok p ∧
        p.ddb.stream = some .NEW_AND_OLD_IMAGES ∧
        strOptFalsy p.ddb.tableStreamArn = false) ∧
    (∀ m, initPipeline sampleEnv "myapp.users" ≠ .error (.configurationError m)) ∧
    (∀ en m, validate_pipe_parameters pipelineTable en ≠
        .error (.configurationError m)) :=
  pipeline_stream_check_unreachable sampleEnv "myapp.users"

end Pipes
